import Mathlib

/-!
Verification of the authentication redirect state machine and session
lifecycle manager of `solid-client-authn-webext` (packages/webext).

The TypeScript sources are shallowly embedded: every method becomes a pure
Lean function over explicit state, and the side effects a method performs
(storage writes, the host interactive-authentication capability, delegation
to collaborator handlers, event emissions) are reified as an ordered trace
of effect values returned alongside the result.  External collaborators
(the OIDC client library, the host identity API, the incoming-redirect
handler) enter as parameters carrying their resolved or rejected outcomes.
-/

deriving instance DecidableEq for Except

/-- `ISessionInfo` from the core package: the public session record. -/
structure SessionInfo where
  sessionId : String
  isLoggedIn : Bool
  webId : Option String := none
  clientAppId : Option String := none
  expirationDate : Option Nat := none
  deriving DecidableEq, Repr

/-! ## WebAuthFlowOidcHandler (src/login/oidc/oidcHandlers/WebAuthFlowOidcHandler.ts) -/

/-- The slice of the issuer configuration consulted by the handler. -/
structure IIssuerConfig where
  grantTypesSupported : Option (List String) := none
  deriving DecidableEq, Repr

/-- The registered client data carried inside `IOidcOptions`. -/
structure IClientData where
  clientId : String := ""
  clientSecret : Option String := none
  deriving DecidableEq, Repr

/-- `IOidcOptions` as consumed by `WebAuthFlowOidcHandler`. -/
structure IOidcOptions where
  sessionId : String
  issuer : String
  issuerConfiguration : IIssuerConfig := {}
  client : IClientData := {}
  redirectUrl : Option String := none
  dpop : Bool := false
  keepAlive : Option Bool := none
  prompt : Option String := none
  scopes : List String := []
  deriving DecidableEq, Repr

/-- The resolved value of `oidcClient.createSigninRequest()`: the `_id` of the
request state, the PKCE `_code_verifier`, and the authorization URL. -/
structure SigninRequest where
  stateId : String
  codeVerifier : String
  url : String
  deriving DecidableEq, Repr

/-- Observable side effects of `WebAuthFlowOidcHandler.handle`, in order. -/
inductive WEffect where
  | setForUser (key : String) (fields : List (String × String))
  | launchWebAuthFlow (url : String)
  | handleRedirect (url : String)
  deriving DecidableEq, Repr

namespace WebAuthFlowOidcHandler

/-- `parametersGuard`: the issuer must advertise the `authorization_code`
grant type and a redirect URL must be present. -/
def parametersGuard (o : IOidcOptions) : Bool :=
  match o.issuerConfiguration.grantTypesSupported with
  | none => false
  | some gts => gts.contains "authorization_code" && o.redirectUrl.isSome

/-- The configuration handed to `new OidcClient(...)` by `getOidcClient`. -/
structure OidcClientConfig where
  authority : String
  clientId : String
  clientSecret : Option String
  redirectUri : Option String
  responseType : String
  scope : String
  prompt : String
  deriving DecidableEq, Repr

/-- `getOidcClient`: builds the OIDC client configuration from the login
options.  `redirect_uri` is `oidcLoginOptions.redirectUrl`, the scope is the
space-joined scope list and `prompt` defaults to `"consent"`. -/
def getOidcClient (o : IOidcOptions) : OidcClientConfig :=
  { authority := o.issuer
    clientId := o.client.clientId
    clientSecret := o.client.clientSecret
    redirectUri := o.redirectUrl
    responseType := "code"
    scope := String.intercalate " " o.scopes
    prompt := o.prompt.getD "consent" }

/-- The per-session record persisted by `handle`: code verifier, issuer,
redirect URL, stringified `dpop` flag, and `keepAlive` defaulting to true. -/
def sessionRecord (o : IOidcOptions) (sr : SigninRequest) : List (String × String) :=
  [("codeVerifier", sr.codeVerifier),
   ("issuer", o.issuer),
   ("redirectUrl", o.redirectUrl.getD ""),
   ("dpop", if o.dpop then "true" else "false"),
   ("keepAlive", if o.keepAlive.getD true then "true" else "false")]

/-- `WebAuthFlowOidcHandler.handle`.  `sr` is the resolved signin request
produced by the OIDC client collaborator, `launchResult` the outcome of
`browser.identity.launchWebAuthFlow`, and `redirectResult` the outcome of the
incoming-redirect handler on a given callback URL.  Returns the ordered
effect trace together with the promise outcome. -/
def handle (sr : SigninRequest) (launchResult : Except String String)
    (redirectResult : String → Except String SessionInfo)
    (o : IOidcOptions) : List WEffect × Except String SessionInfo :=
  if parametersGuard o then
    let writes : List WEffect :=
      [WEffect.setForUser sr.stateId [("sessionId", o.sessionId)],
       WEffect.setForUser o.sessionId (sessionRecord o sr)]
    match launchResult with
    | .error e => (writes ++ [WEffect.launchWebAuthFlow sr.url], .error e)
    | .ok cbUrl =>
        (writes ++ [WEffect.launchWebAuthFlow sr.url, WEffect.handleRedirect cbUrl],
         redirectResult cbUrl)
  else ([], .error "The authorization code grant requires a redirectUrl.")

/-- Whether the issuer configuration advertises the authorization-code
grant type. -/
def advertisesAuthCode (o : IOidcOptions) : Bool :=
  match o.issuerConfiguration.grantTypesSupported with
  | none => false
  | some gts => gts.contains "authorization_code"

end WebAuthFlowOidcHandler

/-! ## ClientAuthentication (packages/webext/src/ClientAuthentication.ts) -/

/-- `ILoginOptions` as received by `ClientAuthentication.login`. -/
structure ILoginOptions where
  sessionId : String
  redirectUrl : Option String := none
  oidcIssuer : Option String := none
  clientId : Option String := none
  clientName : Option String := none
  clientSecret : Option String := none
  prompt : Option String := none
  tokenType : String := "DPoP"
  deriving DecidableEq, Repr

/-- Whether the first list is an initial segment of the second. -/
def listStartsWith : List Char → List Char → Bool
  | [], _ => true
  | _ :: _, [] => false
  | c :: cs, d :: ds => c = d && listStartsWith cs ds

/-- Splits a character list at every occurrence of the separator. -/
def splitOnChar (sep : Char) : List Char → List (List Char)
  | [] => [[]]
  | c :: cs =>
      match splitOnChar sep cs with
      | [] => if c = sep then [[], []] else [[c]]
      | p :: ps => if c = sep then [] :: p :: ps else (c :: p) :: ps

/-- Modelled from the spec: `isValidRedirectUrl` lives in the core package of
this repository fork (outside the webext sources).  Per its documented error
message, a redirect URL is invalid when it is a malformed IRI, includes a
hash fragment, or carries the reserved query parameters `code` or `state`. -/
def isValidRedirectUrl (url : String) : Bool :=
  let cs := url.data
  (listStartsWith "http://".data cs || listStartsWith "https://".data cs)
  && !cs.contains '#'
  && !((splitOnChar '&' (((splitOnChar '?' cs).drop 1).headD [])).any
        (fun p => listStartsWith "code=".data p || listStartsWith "state=".data p))

/-- The argument object passed to `this.loginHandler.handle(...)`: the login
options spread out, with `clientName` defaulted to `clientId`, plus the
event emitter (represented by an identifier). -/
structure HandlerCall where
  sessionId : String
  redirectUrl : Option String
  oidcIssuer : Option String
  clientId : Option String
  clientName : Option String
  clientSecret : Option String
  prompt : Option String
  tokenType : String
  eventEmitter : Nat
  deriving DecidableEq, Repr

/-- Observable side effects of `ClientAuthentication.login`, in order. -/
inductive CAStep where
  | clear (sessionId : String)
  | handlerHandle (call : HandlerCall)
  deriving DecidableEq, Repr

/-- The piece of `ClientAuthentication` state relevant to the claims: which
fetch function is currently bound.  `none` is the unauthenticated
pass-through; `some k` identifies an authenticated fetch obtained from a
login result. -/
structure CAState where
  boundFetch : Option Nat := none
  deriving DecidableEq, Repr

namespace ClientAuthentication

/-- The object passed to `loginHandler.handle` by `login`. -/
def handlerCallOf (o : ILoginOptions) (eventEmitter : Nat) : HandlerCall :=
  { sessionId := o.sessionId
    redirectUrl := o.redirectUrl
    oidcIssuer := o.oidcIssuer
    clientId := o.clientId
    clientName := (o.clientName).orElse (fun _ => o.clientId)
    clientSecret := o.clientSecret
    prompt := o.prompt
    tokenType := o.tokenType
    eventEmitter := eventEmitter }

/-- The error text thrown for a missing or invalid redirect URL (message
abbreviated to its stable prefix). -/
def invalidRedirectMsg : String := "not a valid redirect URL"

/-- `ClientAuthentication.login` of the webext package.  `handlerResult` is
the outcome of the delegated `loginHandler.handle` call (its resolved value,
if any, carries the login result's session info).  `es` is the incoming
`ClientAuthentication` state.  Returns the updated state, the ordered effect
trace, and the promise outcome: the method resolves with `Unit` — it does
not forward any session info — or rejects with an error string. -/
def login (handlerResult : Except String (Option SessionInfo))
    (es : CAState) (o : ILoginOptions) (eventEmitter : Nat) :
    CAState × List CAStep × Except String Unit :=
  let pre : List CAStep :=
    if o.prompt = some "none" then [] else [CAStep.clear o.sessionId]
  match o.redirectUrl with
  | none => (es, pre, .error invalidRedirectMsg)
  | some url =>
      if isValidRedirectUrl url then
        match handlerResult with
        | .error e => (es, pre ++ [CAStep.handlerHandle (handlerCallOf o eventEmitter)], .error e)
        | .ok _ => (es, pre ++ [CAStep.handlerHandle (handlerCallOf o eventEmitter)], .ok ())
      else (es, pre, .error invalidRedirectMsg)

end ClientAuthentication

/-! ## Session (packages/webext/src/Session.ts) and the Redirector
(src/login/oidc/Redirector.ts) -/

/-- Model of the external `uuid` package's `v4` generator: a hyphenated
36-character identifier derived from a seed. -/
def hexDigit (n : Nat) : Char :=
  if n < 10 then Char.ofNat (48 + n) else Char.ofNat (87 + n)

/-- The low `k` hexadecimal digits of `n`, least significant first. -/
def hexChars : Nat → Nat → List Char
  | 0, _ => []
  | k + 1, n => hexDigit (n % 16) :: hexChars k (n / 16)

/-- The character content of a version-4 UUID derived from `seed`. -/
def uuidChars (seed : Nat) : List Char :=
  hexChars 8 seed ++ '-' :: hexChars 4 (seed / 16 ^ 8) ++ '-' :: '4' :: hexChars 3 (seed / 16 ^ 12)
    ++ '-' :: hexChars 4 (seed / 16 ^ 15) ++ '-' :: hexChars 12 (seed / 16 ^ 19)

/-- `v4()` from the `uuid` package (external collaborator). -/
def uuidV4 (seed : Nat) : String := String.mk (uuidChars seed)

/-- The named events of the session event bus. -/
inductive EventName where
  | login
  | logout
  | error
  | sessionExpired
  | sessionExtended
  deriving DecidableEq, Repr

/-- A listener registered on the bus: the constructor-installed silent
logout, the `SESSION_EXTENDED` expiration updater installed by
`setSessionInfo`, or an opaque user callback. -/
inductive Handler where
  | silentLogout
  | extendExpiration
  | user (id : Nat)
  deriving DecidableEq, Repr

/-- Observable side effects of `Session` operations, in order:
`ClientAuthentication.logout` invocations, `LOGOUT` and `LOGIN` emissions,
and user-callback invocations. -/
inductive SEffect where
  | caLogout (sessionId : String)
  | logoutEmitted
  | loginEmitted
  | userCalled (id : Nat) (ev : EventName)
  deriving DecidableEq, Repr

/-- Recognizes a `ClientAuthentication.logout` invocation effect. -/
def isCaLogoutEffect : SEffect → Bool
  | SEffect.caLogout _ => true
  | _ => false

/-- The state of a `Session` object: its `info` record, the currently bound
fetch function (`none` = the unauthenticated pass-through to
`ClientAuthentication.fetch`, `some k` = the authenticated fetch `k`
installed by a completed login), and the event bus listener registrations in
order. -/
structure SessionState where
  info : SessionInfo
  boundFetch : Option Nat := none
  bus : List (EventName × Handler) := []
  deriving DecidableEq, Repr

/-- The session info together with the fetch function carried by a redirect
result (`RedirectInfo = ISessionInfo & fetch`); the fetch function is
identified by a number, `0` being the plain unauthenticated `fetch`. -/
structure RedirectInfo where
  info : SessionInfo
  fetchId : Nat
  deriving DecidableEq, Repr

/-- `getUnauthenticatedSession` from the core `SessionInfoManager`: a freshly
generated session id, logged out, carrying the plain `fetch`. -/
def getUnauthenticatedSession (freshId : String) : RedirectInfo :=
  { info := { sessionId := freshId, isLoggedIn := false }, fetchId := 0 }

/-- Outcome of the promise returned by `Session.login`. -/
inductive LoginOutcome where
  | pending
  | resolved
  | rejected (e : String)
  deriving DecidableEq, Repr

namespace Session

/-- The listeners registered for a given event, in registration order. -/
def handlersFor (s : SessionState) (ev : EventName) : List Handler :=
  (s.bus.filter (fun p => decide (p.1 = ev))).map (fun p => p.2)

/-- The `Session` constructor.  With `sessionInfo` supplied, copies
`sessionId`, `webId` and `clientAppId` and forces `isLoggedIn := false`;
otherwise uses the `sessionId` argument or a freshly generated `v4()` value
(`freshId`).  Registers the silent-logout listeners for `SESSION_EXPIRED`
and `ERROR`. -/
def mkSession (sessionInfo : Option SessionInfo) (sessionIdArg : Option String)
    (freshId : String) : SessionState :=
  let info : SessionInfo :=
    match sessionInfo with
    | some si =>
        { sessionId := si.sessionId, isLoggedIn := false,
          webId := si.webId, clientAppId := si.clientAppId }
    | none => { sessionId := sessionIdArg.getD freshId, isLoggedIn := false }
  { info := info
    boundFetch := none
    bus := [(EventName.sessionExpired, Handler.silentLogout),
            (EventName.error, Handler.silentLogout)] }

/-- The body of `internalLogout(false)`: awaits
`ClientAuthentication.logout`, forces `isLoggedIn := false` and restores the
unauthenticated fetch; emits nothing. -/
def silentLogoutStep (s : SessionState) : SessionState × List SEffect :=
  ({ s with info := { s.info with isLoggedIn := false }, boundFetch := none },
   [SEffect.caLogout s.info.sessionId])

/-- Runs one bus listener for event `ev`. -/
def runHandler (now expiresIn : Nat) (ev : EventName) (s : SessionState) :
    Handler → SessionState × List SEffect
  | Handler.silentLogout => silentLogoutStep s
  | Handler.extendExpiration =>
      ({ s with info := { s.info with expirationDate := some (now + expiresIn * 1000) } }, [])
  | Handler.user id => (s, [SEffect.userCalled id ev])

/-- Runs a list of bus listeners in order, threading the session state. -/
def runHandlers (now expiresIn : Nat) (ev : EventName) (s : SessionState) :
    List Handler → SessionState × List SEffect
  | [] => (s, [])
  | h :: hs =>
      let r1 := runHandler now expiresIn ev s h
      let r2 := runHandlers now expiresIn ev r1.1 hs
      (r2.1, r1.2 ++ r2.2)

/-- Emitting an event on the bus: runs the registered listeners for that
event in registration order (synchronous dispatch). -/
def emitEvent (now expiresIn : Nat) (ev : EventName) (s : SessionState) :
    SessionState × List SEffect :=
  runHandlers now expiresIn ev s (handlersFor s ev)

/-- `Session.internalLogout(emitSignal)`: the silent logout step, followed —
when `emitSignal` is set — by the `LOGOUT` emission and its dispatch. -/
def internalLogout (emitSignal : Bool) (s : SessionState) : SessionState × List SEffect :=
  let r1 := silentLogoutStep s
  if emitSignal then
    let r2 := emitEvent 0 0 EventName.logout r1.1
    (r2.1, r1.2 ++ [SEffect.logoutEmitted] ++ r2.2)
  else r1

/-- `Session.logout`: always `internalLogout(true)`. -/
def logout (s : SessionState) : SessionState × List SEffect :=
  internalLogout true s

/-- `Session.setSessionInfo`: field-by-field copy of the supplied record
into `this.info`; when the new info is logged in, additionally registers the
`SESSION_EXTENDED` expiration-date updater. -/
def setSessionInfo (s : SessionState) (si : SessionInfo) : SessionState :=
  let s1 := { s with info :=
    { isLoggedIn := si.isLoggedIn, webId := si.webId, sessionId := si.sessionId,
      clientAppId := si.clientAppId, expirationDate := si.expirationDate } }
  if si.isLoggedIn then
    { s1 with bus := s1.bus ++ [(EventName.sessionExtended, Handler.extendExpiration)] }
  else s1

/-- `Session.login`: wraps `ClientAuthentication.login` in a new promise.
On rejection of the delegated call the promise is rejected with the same
error (`.catch((err) => reject(err))`); on resolution nothing happens — the
promise stays pending until the redirect callback fires.  Either way the
session state is untouched and no event is dispatched. -/
def login (caResult : Except String Unit) (s : SessionState) :
    SessionState × LoginOutcome × List SEffect :=
  match caResult with
  | .error e => (s, LoginOutcome.rejected e, [])
  | .ok _ => (s, LoginOutcome.pending, [])

/-- `Session.redirectCallback`: splits the fetch function off the redirect
info, applies the remaining fields via `setSessionInfo`, settles the pending
login promise (reject on error, resolve otherwise), and — only when the new
info is logged in — binds the carried fetch and emits `LOGIN`. -/
def redirectCallback (s : SessionState) (ri : RedirectInfo) (err : Option String) :
    SessionState × LoginOutcome × List SEffect :=
  let s1 := setSessionInfo s ri.info
  let outcome := match err with
    | some e => LoginOutcome.rejected e
    | none => LoginOutcome.resolved
  if ri.info.isLoggedIn then
    let s2 := { s1 with boundFetch := some ri.fetchId }
    let r := emitEvent 0 0 EventName.login s2
    (r.1, outcome, SEffect.loginEmitted :: r.2)
  else (s1, outcome, [])

end Session

namespace Redirector

/-- `Redirector.redirect`: launches the host interactive-authentication
capability; on success forwards the terminal URL to the redirect handler and
passes its result to `afterRedirect`; on failure of either step invokes
`afterRedirect` with a freshly constructed unauthenticated session info and
the error.  `freshId` is the id generated inside
`getUnauthenticatedSession`.  Returns the `afterRedirect` arguments. -/
def redirect (launchResult : Except String String)
    (handleResult : String → Except String RedirectInfo)
    (freshId : String) : RedirectInfo × Option String :=
  match launchResult with
  | .error e => (getUnauthenticatedSession freshId, some e)
  | .ok url =>
      match handleResult url with
      | .error e => (getUnauthenticatedSession freshId, some e)
      | .ok ri => (ri, none)

end Redirector

/-- A concrete logged-in session: constructed fresh, then driven through a
successful redirect callback. -/
def loggedInSession : SessionState :=
  (Session.redirectCallback (Session.mkSession none none "id0")
    { info := { sessionId := "id0", isLoggedIn := true,
                webId := some "https://my.pod/profile" }, fetchId := 5 }
    none).1

/-! ## Helper lemmas -/

theorem hexChars_length : ∀ (k n : Nat), (hexChars k n).length = k := by
  intro k
  induction k with
  | zero => intro n; rfl
  | succ k ih => intro n; simp [hexChars, ih]

theorem uuidV4_ne_empty (seed : Nat) : uuidV4 seed ≠ "" := by
  intro h
  have h2 := congrArg String.length h
  simp [uuidV4, String.length, uuidChars, hexChars_length] at h2

theorem runHandlers_no_logout_emitted (now ei : Nat) (ev : EventName) :
    ∀ (hs : List Handler) (s : SessionState),
      SEffect.logoutEmitted ∉ (Session.runHandlers now ei ev s hs).2 := by
  intro hs
  induction hs with
  | nil => intro s; simp [Session.runHandlers]
  | cons h hs ih =>
      intro s
      cases h with
      | silentLogout =>
          simp [Session.runHandlers, Session.runHandler, Session.silentLogoutStep]
          exact ih _
      | extendExpiration =>
          simp [Session.runHandlers, Session.runHandler]
          exact ih _
      | user id =>
          simp [Session.runHandlers, Session.runHandler]
          exact ih _

theorem runHandlers_countP_caLogout (now ei : Nat) (ev : EventName) :
    ∀ (hs : List Handler) (s : SessionState),
      (Session.runHandlers now ei ev s hs).2.countP isCaLogoutEffect
        = hs.count Handler.silentLogout := by
  intro hs
  induction hs with
  | nil => intro s; simp [Session.runHandlers]
  | cons h hs ih =>
      intro s
      cases h with
      | silentLogout =>
          simp [Session.runHandlers, Session.runHandler, Session.silentLogoutStep,
            List.countP_append, List.count_cons, isCaLogoutEffect, ih]
      | extendExpiration =>
          simp [Session.runHandlers, Session.runHandler,
            List.countP_append, List.count_cons, ih]
      | user id =>
          simp [Session.runHandlers, Session.runHandler,
            List.countP_append, List.count_cons, isCaLogoutEffect, ih]

theorem runHandlers_preserves_loggedOut (now ei : Nat) (ev : EventName) :
    ∀ (hs : List Handler) (s : SessionState), s.info.isLoggedIn = false →
      (Session.runHandlers now ei ev s hs).1.info.isLoggedIn = false := by
  intro hs
  induction hs with
  | nil => intro s h; simpa [Session.runHandlers] using h
  | cons h hs ih =>
      intro s hsf
      cases h with
      | silentLogout =>
          exact ih _ (by simp [Session.runHandlers, Session.runHandler, Session.silentLogoutStep])
      | extendExpiration =>
          exact ih _ (by simpa [Session.runHandlers, Session.runHandler] using hsf)
      | user id =>
          exact ih _ (by simpa [Session.runHandlers, Session.runHandler] using hsf)

theorem runHandlers_logsOut (now ei : Nat) (ev : EventName) :
    ∀ (hs : List Handler) (s : SessionState), 1 ≤ hs.count Handler.silentLogout →
      (Session.runHandlers now ei ev s hs).1.info.isLoggedIn = false := by
  intro hs
  induction hs with
  | nil => intro s h; simp at h
  | cons h hs ih =>
      intro s hcount
      cases h with
      | silentLogout =>
          have : ((Session.runHandler now ei ev s Handler.silentLogout).1).info.isLoggedIn
              = false := by
            simp [Session.runHandler, Session.silentLogoutStep]
          simpa [Session.runHandlers] using
            runHandlers_preserves_loggedOut now ei ev hs _ this
      | extendExpiration =>
          have hc : 1 ≤ hs.count Handler.silentLogout := by
            simpa [List.count_cons] using hcount
          simpa [Session.runHandlers, Session.runHandler] using ih _ hc
      | user id =>
          have hc : 1 ≤ hs.count Handler.silentLogout := by
            simpa [List.count_cons] using hcount
          simpa [Session.runHandlers, Session.runHandler] using ih _ hc

theorem logout_spec (s : SessionState) :
    (Session.logout s).2.count SEffect.logoutEmitted = 1
      ∧ (Session.logout s).1.info.isLoggedIn = false := by
  constructor
  · have hno := runHandlers_no_logout_emitted 0 0 EventName.logout
      (Session.handlersFor (Session.silentLogoutStep s).1 EventName.logout)
      (Session.silentLogoutStep s).1
    simp [Session.logout, Session.internalLogout, Session.emitEvent,
      Session.silentLogoutStep, List.count_append, List.count_cons] at hno ⊢
    exact List.count_eq_zero_of_not_mem hno
  · have hfalse : ((Session.silentLogoutStep s).1).info.isLoggedIn = false := by
      simp [Session.silentLogoutStep]
    simpa [Session.logout, Session.internalLogout, Session.emitEvent] using
      runHandlers_preserves_loggedOut 0 0 EventName.logout _ _ hfalse

/-! ## Claim theorems -/

/-- C4: if the issuer configuration does not advertise the
`authorization_code` grant type, or the redirect URL is undefined,
`WebAuthFlowOidcHandler.handle` rejects with an error and performs no side
effect at all: the effect trace is empty, so the host capability is never
launched, no storage write occurs, and the redirect handler is not invoked. -/
theorem C4_handle_precondition_rejects_without_side_effects
    (sr : SigninRequest) (launchResult : Except String String)
    (redirectResult : String → Except String SessionInfo) (o : IOidcOptions)
    (h : WebAuthFlowOidcHandler.advertisesAuthCode o = false ∨ o.redirectUrl = none) :
    WebAuthFlowOidcHandler.handle sr launchResult redirectResult o =
      ([], .error "The authorization code grant requires a redirectUrl.") := by
  have hguard : WebAuthFlowOidcHandler.parametersGuard o = false := by
    unfold WebAuthFlowOidcHandler.parametersGuard
    unfold WebAuthFlowOidcHandler.advertisesAuthCode at h
    rcases h with h | h
    · cases hg : o.issuerConfiguration.grantTypesSupported with
      | none => simp
      | some gts => simp [hg] at h ⊢; simp [h]
    · cases hg : o.issuerConfiguration.grantTypesSupported with
      | none => simp
      | some gts => simp [h]
  unfold WebAuthFlowOidcHandler.handle
  simp [hguard]

/-- Closed witness for C4 at a concrete input with a missing redirect URL. -/
theorem C4_handle_precondition_rejects_without_side_effects_witness :
    WebAuthFlowOidcHandler.handle
      { stateId := "st", codeVerifier := "cv", url := "https://idp/auth" }
      (.ok "https://ext/cb") (fun u => .ok { sessionId := u, isLoggedIn := true })
      { sessionId := "mySession", issuer := "https://idp",
        issuerConfiguration := { grantTypesSupported := some ["authorization_code"] },
        redirectUrl := none } =
      ([], .error "The authorization code grant requires a redirectUrl.") :=
  C4_handle_precondition_rejects_without_side_effects _ _ _ _ (Or.inr rfl)

/-- C5: when the grant-type and redirect-URL precondition passes, the effect
trace of `WebAuthFlowOidcHandler.handle` starts with the two persistence
writes — the state-value-to-sessionId mapping and the per-session record
holding `codeVerifier`, `issuer`, `redirectUrl`, `dpop` and `keepAlive` —
and only then the host capability launch, so both writes complete before
`launchWebAuthFlow` is invoked. -/
theorem C5_handle_persists_before_launch
    (sr : SigninRequest) (launchResult : Except String String)
    (redirectResult : String → Except String SessionInfo) (o : IOidcOptions)
    (h : WebAuthFlowOidcHandler.parametersGuard o = true) :
    ∃ rest,
      (WebAuthFlowOidcHandler.handle sr launchResult redirectResult o).1 =
        WEffect.setForUser sr.stateId [("sessionId", o.sessionId)] ::
        WEffect.setForUser o.sessionId (WebAuthFlowOidcHandler.sessionRecord o sr) ::
        WEffect.launchWebAuthFlow sr.url :: rest := by
  unfold WebAuthFlowOidcHandler.handle
  cases launchResult with
  | error e => exact ⟨[], by simp [h]⟩
  | ok cbUrl => exact ⟨[WEffect.handleRedirect cbUrl], by simp [h]⟩

/-- Closed witness for C5 at a concrete valid login. -/
theorem C5_handle_persists_before_launch_witness :
    ∃ rest,
      (WebAuthFlowOidcHandler.handle
        { stateId := "st", codeVerifier := "cv", url := "https://idp/auth" }
        (.ok "https://ext/cb") (fun u => .ok { sessionId := u, isLoggedIn := true })
        { sessionId := "mySession", issuer := "https://idp",
          issuerConfiguration := { grantTypesSupported := some ["authorization_code"] },
          redirectUrl := some "https://app.example.com" }).1 =
        WEffect.setForUser "st" [("sessionId", "mySession")] ::
        WEffect.setForUser "mySession"
          (WebAuthFlowOidcHandler.sessionRecord
            { sessionId := "mySession", issuer := "https://idp",
              issuerConfiguration := { grantTypesSupported := some ["authorization_code"] },
              redirectUrl := some "https://app.example.com" }
            { stateId := "st", codeVerifier := "cv", url := "https://idp/auth" }) ::
        WEffect.launchWebAuthFlow "https://idp/auth" :: rest :=
  C5_handle_persists_before_launch _ _ _ _ (by decide)

/-- C1 counterexample evidence: at a concrete successful login whose
delegated handler resolves with session info, `ClientAuthentication.login`
resolves with `()` — it does not return the handler's session info — and
leaves the bound fetch unchanged; and when the handler resolves without
session info, it still resolves with `()` instead of rejecting with an
`UnexpectedLoginFailure` error. -/
theorem C1_login_discards_session_info_and_fetch :
    (ClientAuthentication.login
        (.ok (some { sessionId := "mySession", isLoggedIn := true,
                     webId := some "https://my.pod/profile" }))
        { boundFetch := none }
        { sessionId := "mySession", redirectUrl := some "https://coolapp.com/redirect",
          oidcIssuer := some "https://idp.com", clientId := some "coolApp" } 0 =
      ({ boundFetch := none },
       [CAStep.clear "mySession",
        CAStep.handlerHandle
          { sessionId := "mySession", redirectUrl := some "https://coolapp.com/redirect",
            oidcIssuer := some "https://idp.com", clientId := some "coolApp",
            clientName := some "coolApp", clientSecret := none, prompt := none,
            tokenType := "DPoP", eventEmitter := 0 }],
       .ok ()))
    ∧ (ClientAuthentication.login (.ok none)
        { boundFetch := some 7 }
        { sessionId := "mySession", redirectUrl := some "https://coolapp.com/redirect",
          oidcIssuer := some "https://idp.com", clientId := some "coolApp" } 0).2.2
        = .ok () := by
  constructor
  · decide
  · decide

/-- C3 counterexample evidence: the caller-supplied `redirectUrl` is not
ignored.  At a concrete login whose caller supplies
`"https://example.org"` while the host capability's callback-URL accessor
would return `"https://coolapp.com/redirect"`, `ClientAuthentication.login`
forwards the caller's value to the delegated login handler,
`WebAuthFlowOidcHandler.getOidcClient` uses that caller value as the
`redirect_uri` of the authorization request, and when the caller supplies no
`redirectUrl` the login rejects instead of falling back to the accessor. -/
theorem C3_login_uses_caller_supplied_redirect_url :
    ((ClientAuthentication.login (.ok none) { boundFetch := none }
        { sessionId := "mySession", redirectUrl := some "https://example.org",
          oidcIssuer := some "https://idp.com", clientId := some "coolApp",
          tokenType := "Bearer" } 0).2.1.any
      (fun s =>
        match s with
        | CAStep.handlerHandle c => c.redirectUrl = some "https://example.org"
        | _ => false) = true)
    ∧ ("https://example.org" : String) ≠ "https://coolapp.com/redirect"
    ∧ (WebAuthFlowOidcHandler.getOidcClient
        { sessionId := "mySession", issuer := "https://idp.com",
          redirectUrl := some "https://example.org" }).redirectUri
        = some "https://example.org"
    ∧ (ClientAuthentication.login (.ok none) { boundFetch := none }
        { sessionId := "mySession", redirectUrl := none,
          oidcIssuer := some "https://idp.com", clientId := some "coolApp" } 0).2.2
        = .error ClientAuthentication.invalidRedirectMsg := by
  refine ⟨by decide, by decide, rfl, rfl⟩

/-- C6: `ClientAuthentication.login` clears the persisted state of
`options.sessionId` if and only if `options.prompt` is not `"none"`, and it
does so before any delegation: the effect trace is the conditional clear
step followed by a remainder containing no clear step at all (so a silent
login leaves the persisted state untouched). -/
theorem C6_login_clears_iff_not_silent
    (handlerResult : Except String (Option SessionInfo)) (es : CAState)
    (o : ILoginOptions) (em : Nat) :
    ∃ deleg, (ClientAuthentication.login handlerResult es o em).2.1 =
        (if o.prompt = some "none" then [] else [CAStep.clear o.sessionId]) ++ deleg
      ∧ ∀ sid, CAStep.clear sid ∉ deleg := by
  unfold ClientAuthentication.login
  cases hr : o.redirectUrl with
  | none => exact ⟨[], by simp, by simp⟩
  | some url =>
      by_cases hv : isValidRedirectUrl url
      · cases handlerResult with
        | error e =>
            exact ⟨[CAStep.handlerHandle (ClientAuthentication.handlerCallOf o em)],
              by simp [hv], by simp⟩
        | ok v =>
            exact ⟨[CAStep.handlerHandle (ClientAuthentication.handlerCallOf o em)],
              by simp [hv], by simp⟩
      · exact ⟨[], by simp [hv], by simp⟩

/-- C2 counterexample evidence: at a concrete logged-in session whose
delegated `ClientAuthentication.login` rejects with `"Test error"`,
`Session.login` rejects with the same error but performs no other action:
the session state is unchanged (in particular `info.isLoggedIn` stays
`true`) and the effect trace is empty, so no `ERROR` event with tag
`"login"` is dispatched to any listener. -/
theorem C2_login_rejection_emits_no_error_event :
    Session.login (.error "Test error") loggedInSession
      = (loggedInSession, LoginOutcome.rejected "Test error", [])
    ∧ loggedInSession.info.isLoggedIn = true := by
  exact ⟨rfl, by decide⟩

/-- C7: on a logged-in session whose bus carries exactly one
constructor-installed silent-logout listener for `SESSION_EXPIRED` and one
for `ERROR`, emitting `SESSION_EXPIRED` runs exactly one
`ClientAuthentication.logout` side effect, leaves `info.isLoggedIn = false`,
and emits no `LOGOUT` event; emitting `ERROR` triggers the same silent
logout. -/
theorem C7_session_expired_and_error_trigger_silent_logout
    (s : SessionState)
    (hexp : (Session.handlersFor s EventName.sessionExpired).count Handler.silentLogout = 1)
    (herr : (Session.handlersFor s EventName.error).count Handler.silentLogout = 1)
    (hin : s.info.isLoggedIn = true) :
    ((Session.emitEvent 0 0 EventName.sessionExpired s).2.countP isCaLogoutEffect = 1
      ∧ (Session.emitEvent 0 0 EventName.sessionExpired s).1.info.isLoggedIn = false
      ∧ SEffect.logoutEmitted ∉ (Session.emitEvent 0 0 EventName.sessionExpired s).2)
    ∧ ((Session.emitEvent 0 0 EventName.error s).2.countP isCaLogoutEffect = 1
      ∧ (Session.emitEvent 0 0 EventName.error s).1.info.isLoggedIn = false
      ∧ SEffect.logoutEmitted ∉ (Session.emitEvent 0 0 EventName.error s).2) := by
  have h1 := runHandlers_countP_caLogout 0 0 EventName.sessionExpired
    (Session.handlersFor s EventName.sessionExpired) s
  have h2 := runHandlers_countP_caLogout 0 0 EventName.error
    (Session.handlersFor s EventName.error) s
  refine ⟨⟨?_, ?_, ?_⟩, ?_, ?_, ?_⟩
  · simpa [Session.emitEvent, hexp] using h1
  · exact runHandlers_logsOut 0 0 EventName.sessionExpired
      (Session.handlersFor s EventName.sessionExpired) s (le_of_eq hexp.symm)
  · exact runHandlers_no_logout_emitted 0 0 EventName.sessionExpired
      (Session.handlersFor s EventName.sessionExpired) s
  · simpa [Session.emitEvent, herr] using h2
  · exact runHandlers_logsOut 0 0 EventName.error
      (Session.handlersFor s EventName.error) s (le_of_eq herr.symm)
  · exact runHandlers_no_logout_emitted 0 0 EventName.error
      (Session.handlersFor s EventName.error) s

/-- Closed witness for C7 on the concrete logged-in session. -/
theorem C7_session_expired_and_error_trigger_silent_logout_witness :
    ((Session.emitEvent 0 0 EventName.sessionExpired loggedInSession).2.countP
        isCaLogoutEffect = 1
      ∧ (Session.emitEvent 0 0 EventName.sessionExpired loggedInSession).1.info.isLoggedIn
        = false
      ∧ SEffect.logoutEmitted ∉
          (Session.emitEvent 0 0 EventName.sessionExpired loggedInSession).2)
    ∧ ((Session.emitEvent 0 0 EventName.error loggedInSession).2.countP
        isCaLogoutEffect = 1
      ∧ (Session.emitEvent 0 0 EventName.error loggedInSession).1.info.isLoggedIn = false
      ∧ SEffect.logoutEmitted ∉
          (Session.emitEvent 0 0 EventName.error loggedInSession).2) :=
  C7_session_expired_and_error_trigger_silent_logout loggedInSession
    (by decide) (by decide) (by decide)

/-- C8: `Session.logout` is idempotent — called twice in a row on any
session state, each call emits exactly one `LOGOUT` event and leaves
`info.isLoggedIn = false`, including when the session was already logged
out. -/
theorem C8_logout_twice_emits_logout_each_time (s : SessionState) :
    ((Session.logout s).2.count SEffect.logoutEmitted = 1
      ∧ (Session.logout s).1.info.isLoggedIn = false)
    ∧ ((Session.logout (Session.logout s).1).2.count SEffect.logoutEmitted = 1
      ∧ (Session.logout (Session.logout s).1).1.info.isLoggedIn = false) :=
  ⟨logout_spec s, logout_spec (Session.logout s).1⟩

/-- C9: a `Session` constructed with explicit `sessionInfo` copies the
supplied `sessionId` and `webId` and forces `isLoggedIn = false` regardless
of the supplied login status; constructed with empty options and no session
id argument, it is logged out and its session id is the freshly generated
(non-empty) `v4()` identifier. -/
theorem C9_constructor_forces_logged_out
    (si : SessionInfo) (sid : Option String) (seed : Nat) :
    ((Session.mkSession (some si) sid (uuidV4 seed)).info.sessionId = si.sessionId
      ∧ (Session.mkSession (some si) sid (uuidV4 seed)).info.webId = si.webId
      ∧ (Session.mkSession (some si) sid (uuidV4 seed)).info.isLoggedIn = false)
    ∧ ((Session.mkSession none none (uuidV4 seed)).info.isLoggedIn = false
      ∧ (Session.mkSession none none (uuidV4 seed)).info.sessionId = uuidV4 seed
      ∧ uuidV4 seed ≠ "") :=
  ⟨⟨rfl, rfl, rfl⟩, rfl, rfl, uuidV4_ne_empty seed⟩

/-- C10: when the host capability or the redirect handler rejects, the
Redirector invokes `afterRedirect` with a freshly constructed
unauthenticated session info and the error, and `Session.redirectCallback`
applies that fallback field by field even in the error case: afterwards
`info.sessionId` is the fallback's freshly generated id — not the session's
original id — `info.isLoggedIn` is false, the fetch binding is unchanged,
the pending login promise is rejected with the error, and no `LOGIN` event
is emitted. -/
theorem C10_failed_flow_installs_fallback_info
    (s : SessionState) (launchResult : Except String String)
    (handleResult : String → Except String RedirectInfo) (f e : String)
    (hfail : launchResult = .error e
      ∨ ∃ u, launchResult = .ok u ∧ handleResult u = .error e)
    (hfresh : f ≠ s.info.sessionId) :
    Redirector.redirect launchResult handleResult f = (getUnauthenticatedSession f, some e)
    ∧ (Session.redirectCallback s (getUnauthenticatedSession f) (some e)).1.info.sessionId = f
    ∧ (Session.redirectCallback s (getUnauthenticatedSession f) (some e)).1.info.sessionId
        ≠ s.info.sessionId
    ∧ (Session.redirectCallback s (getUnauthenticatedSession f) (some e)).1.info.isLoggedIn
        = false
    ∧ (Session.redirectCallback s (getUnauthenticatedSession f) (some e)).1.boundFetch
        = s.boundFetch
    ∧ (Session.redirectCallback s (getUnauthenticatedSession f) (some e)).2.1
        = LoginOutcome.rejected e
    ∧ (Session.redirectCallback s (getUnauthenticatedSession f) (some e)).2.2
        = ([] : List SEffect) := by
  have hred : Redirector.redirect launchResult handleResult f
      = (getUnauthenticatedSession f, some e) := by
    rcases hfail with h | ⟨u, hu, hh⟩
    · simp [Redirector.redirect, h]
    · simp [Redirector.redirect, hu, hh]
  have hcb : Session.redirectCallback s (getUnauthenticatedSession f) (some e)
      = ({ s with info := { sessionId := f, isLoggedIn := false } },
         LoginOutcome.rejected e, []) := by
    simp [Session.redirectCallback, Session.setSessionInfo, getUnauthenticatedSession]
  refine ⟨hred, by rw [hcb], ?_, by rw [hcb], by rw [hcb], by rw [hcb], by rw [hcb]⟩
  rw [hcb]
  exact hfresh

/-- Closed witness for C10: a failed host launch on the concrete logged-in
session. -/
theorem C10_failed_flow_installs_fallback_info_witness :
    Redirector.redirect (.error "boom") (fun _ => .error "boom") "freshid"
        = (getUnauthenticatedSession "freshid", some "boom")
    ∧ (Session.redirectCallback loggedInSession (getUnauthenticatedSession "freshid")
        (some "boom")).1.info.sessionId = "freshid"
    ∧ (Session.redirectCallback loggedInSession (getUnauthenticatedSession "freshid")
        (some "boom")).1.info.sessionId ≠ loggedInSession.info.sessionId
    ∧ (Session.redirectCallback loggedInSession (getUnauthenticatedSession "freshid")
        (some "boom")).1.info.isLoggedIn = false
    ∧ (Session.redirectCallback loggedInSession (getUnauthenticatedSession "freshid")
        (some "boom")).1.boundFetch = loggedInSession.boundFetch
    ∧ (Session.redirectCallback loggedInSession (getUnauthenticatedSession "freshid")
        (some "boom")).2.1 = LoginOutcome.rejected "boom"
    ∧ (Session.redirectCallback loggedInSession (getUnauthenticatedSession "freshid")
        (some "boom")).2.2 = ([] : List SEffect) :=
  C10_failed_flow_installs_fallback_info loggedInSession (.error "boom")
    (fun _ => .error "boom") "freshid" "boom" (Or.inl rfl) (by decide)
